import Mathlib

/-!
Shallow embedding of `py3status/modules/xrandr_rotate.py`, the xrandr
rotation toggle widget.

The external tool (`xrandr`, reached through `_call` / shell pipelines) is
modelled as a deterministic oracle `Env`:
* `Env.outputs` is the list of connected output names produced by
  `_get_all_outputs` (the `xrandr -q | grep " connected [^(]" | cut -d " " -f1`
  pipeline, split on whitespace);
* `Env.rotation name` is the stripped rotation-descriptor token produced by
  the `xrandr -q | grep "^<name>" | cut -d " " -f4` pipeline for a given
  output name.

Python exceptions (the `IndexError` raised by `all_outputs[0]` on an empty
list) are modelled with `Option`: a `none` result of `xrandr_rotate` means
the call raised instead of returning a response.  The mutable field
`self.displayed` is threaded explicitly as `WState`.
-/

namespace XrandrRotate

/-- One piece of a Python format string restricted to the two placeholders
the module documents: literal text, `{icon}`, or `{screen}`. -/
inductive FmtItem where
  | lit (s : String)
  | icon
  | screen
deriving DecidableEq

/-- `fmt.format(icon=ic, screen=sc)`: substitute the two placeholders. -/
def fmtRender (fmt : List FmtItem) (ic sc : String) : String :=
  match fmt with
  | [] => ""
  | FmtItem.lit s :: rest => s ++ fmtRender rest ic sc
  | FmtItem.icon :: rest => ic ++ fmtRender rest ic sc
  | FmtItem.screen :: rest => sc ++ fmtRender rest ic sc

/-- The configuration attributes of class `Py3status` (lines 52-59).
`screen = none` models Python `screen = None`. -/
structure Config where
  cache_timeout : Nat
  format : List FmtItem
  hide_if_disconnected : Bool
  horizontal_icon : String
  horizontal_rotation : String
  screen : Option String
  vertical_icon : String
  vertical_rotation : String

/-- The class-level defaults of `Py3status`. -/
def defaultConfig : Config :=
  { cache_timeout := 10
    format := [FmtItem.icon]
    hide_if_disconnected := false
    horizontal_icon := "H"
    horizontal_rotation := "normal"
    screen := none
    vertical_icon := "V"
    vertical_rotation := "left" }

/-- Deterministic oracle for the external `xrandr` tool. -/
structure Env where
  outputs : List String
  rotation : String → String

/-- The mutable state of the widget: `self.displayed` (line 62),
initialised to the empty string in `__init__`. -/
structure WState where
  displayed : String
deriving DecidableEq

/-- The colors the host supplies in `i3s_config`. -/
structure I3Config where
  color_good : String
  color_degraded : String

/-- The dict returned by `xrandr_rotate` (lines 121-132): `cached_until`
(modelled as `now + cache_timeout` over natural-number time), `full_text`,
and the optional `color` key. -/
structure Response where
  cached_until : Nat
  full_text : String
  color : Option String
deriving DecidableEq

/-- Python truthiness of `self.screen` (an `Option String`): `None` and the
empty string are falsy. -/
def pyTruthy : Option String → Bool
  | none => false
  | some s => decide (s ≠ "")

/-- `self.screen or all_outputs[0]` (lines 79 and 118): the screen when
truthy, else the first output; `none` models the `IndexError` raised when
the list is empty. -/
def pyOrFirst (screen : Option String) (all_outputs : List String) : Option String :=
  if pyTruthy screen then screen else all_outputs.head?

/-- `_get_all_outputs` (lines 74-76) through the oracle. -/
def _get_all_outputs (env : Env) : List String :=
  env.outputs

/-- `s.startswith(p)` over the underlying character lists (kept executable
by kernel reduction, unlike `String.startsWith`). -/
def strStartsWith (s p : String) : Bool :=
  List.isPrefixOf p.data s.data

/-- Line 83: `output.startswith('(') or output in ['normal', 'inverted']`. -/
def isHorizontalDescr (s : String) : Bool :=
  strStartsWith s "(" || decide (s = "normal") || decide (s = "inverted")

/-- `_get_current_rotation_icon` (lines 78-84): inspect the configured
screen or the first enumerated output, query its rotation descriptor, and
classify.  `none` models the `IndexError` on `all_outputs[0]`. -/
def _get_current_rotation_icon (cfg : Config) (env : Env)
    (all_outputs : List String) : Option String :=
  match pyOrFirst cfg.screen all_outputs with
  | none => none
  | some out =>
      some (if isHorizontalDescr (env.rotation out) then cfg.horizontal_icon
            else cfg.vertical_icon)

/-- The shell command built on line 90. -/
def rotateCmd (out rotation : String) : String :=
  "xrandr --output " ++ out ++ " --rotate " ++ rotation

/-- `_apply` (lines 86-91): pick the rotation keyword from `displayed`,
pick targets (`[self.screen]` when truthy, else all outputs), and return
the list of issued shell commands in order. -/
def _apply (cfg : Config) (env : Env) (st : WState) : List String :=
  let rotation := if st.displayed = cfg.horizontal_icon then cfg.horizontal_rotation
                  else cfg.vertical_rotation
  let outputs := if pyTruthy cfg.screen then [cfg.screen.getD ""]
                 else _get_all_outputs env
  outputs.map (fun out => rotateCmd out rotation)

/-- `_switch_selection` (lines 93-94). -/
def _switch_selection (cfg : Config) (st : WState) : WState :=
  ⟨if st.displayed = cfg.horizontal_icon then cfg.vertical_icon
    else cfg.horizontal_icon⟩

/-- `on_click` (lines 96-106): returns the new state and the list of shell
commands issued. -/
def on_click (cfg : Config) (env : Env) (st : WState) (button : Nat) :
    WState × List String :=
  if button = 1 ∨ button = 4 ∨ button = 5 then (_switch_selection cfg st, [])
  else if button = 3 then (st, _apply cfg env st)
  else (st, [])

/-- Line 110: `self.screen is not None and self.screen not in all_outputs`.
Note this uses `is not None`, not truthiness. -/
def selectedScreenDisconnected (cfg : Config) (all_outputs : List String) : Bool :=
  match cfg.screen with
  | none => false
  | some s => decide (s ∉ all_outputs)

/-- Line 118, with Python's conditional-expression precedence:
`(self.screen or all_outputs[0]) if len(all_outputs) == 1 else 'ALL'`.
The index is only evaluated in the singleton branch, so `getD` is safe. -/
def screenLabel (cfg : Config) (all_outputs : List String) : String :=
  if all_outputs.length = 1 then (pyOrFirst cfg.screen all_outputs).getD ""
  else "ALL"

/-- Line 119: `self.format.format(icon=self.displayed or '?', screen=screen)`. -/
def renderText (cfg : Config) (all_outputs : List String) (displayed : String) : String :=
  fmtRender cfg.format (if displayed = "" then "?" else displayed)
    (screenLabel cfg all_outputs)

/-- Lines 111-119 of `xrandr_rotate`: the state update and `full_text`
computation.  `none` models the `IndexError` escaping line 116 (in which
case `self.displayed` is left unchanged, since the assignment never runs). -/
def renderStage1 (cfg : Config) (env : Env) (st : WState) : Option (WState × String) :=
  if selectedScreenDisconnected cfg (_get_all_outputs env) && cfg.hide_if_disconnected then
    some (⟨""⟩, "")
  else
    match (if st.displayed = "" then
             _get_current_rotation_icon cfg env (_get_all_outputs env)
           else some st.displayed) with
    | none => none
    | some d => some (⟨d⟩, renderText cfg (_get_all_outputs env) d)

/-- Lines 126-130: the coloration step.  The outer `Option` models the
`IndexError` escaping the fresh `_get_current_rotation_icon` call on line
129; the inner `Option String` is the optional `color` key. -/
def colorOf (cfg : Config) (env : Env) (i3cfg : I3Config) (disc : Bool)
    (all_outputs : List String) (displayed : String) : Option (Option String) :=
  if disc && !cfg.hide_if_disconnected then some (some i3cfg.color_degraded)
  else
    match _get_current_rotation_icon cfg env all_outputs with
    | none => none
    | some ic => if displayed = ic then some (some i3cfg.color_good) else some none

/-- `xrandr_rotate` (lines 108-132): returns the response (or `none` when
an exception escapes) together with the state after the call. -/
def xrandr_rotate (cfg : Config) (env : Env) (i3cfg : I3Config) (now : Nat)
    (st : WState) : Option Response × WState :=
  let all_outputs := _get_all_outputs env
  let disc := selectedScreenDisconnected cfg all_outputs
  match renderStage1 cfg env st with
  | none => (none, st)
  | some (st1, full_text) =>
      match colorOf cfg env i3cfg disc all_outputs st1.displayed with
      | none => (none, st1)
      | some c => (some ⟨now + cfg.cache_timeout, full_text, c⟩, st1)

/-- A host-driven interaction step: a click event or a periodic render,
each against its own snapshot of the external tool. -/
inductive WOp where
  | click (env : Env) (button : Nat)
  | render (env : Env) (now : Nat)

/-- Run a sequence of host callbacks, tracking only the widget state. -/
def runOps (cfg : Config) (i3cfg : I3Config) : List WOp → WState → WState
  | [], st => st
  | WOp.click env b :: rest, st =>
      runOps cfg i3cfg rest (on_click cfg env st b).1
  | WOp.render env n :: rest, st =>
      runOps cfg i3cfg rest (xrandr_rotate cfg env i3cfg n st).2

/-- The Scenario-3 configuration: screen `VGA1` and template `{icon} {screen}`. -/
def cfgVGA1 : Config := { defaultConfig with screen := some "VGA1", format := [FmtItem.icon, FmtItem.lit " ", FmtItem.screen] }

/-- The spec's invariant on `self.displayed`: empty, the horizontal icon,
or the vertical icon. -/
def displayedInv (cfg : Config) (st : WState) : Prop :=
  st.displayed = "" ∨ st.displayed = cfg.horizontal_icon ∨
    st.displayed = cfg.vertical_icon

-- Sanity checks against the spec's scenarios.
example :
    (xrandr_rotate defaultConfig ⟨["eDP1"], fun _ => "normal"⟩
      ⟨"#00FF00", "#FFFF00"⟩ 0 ⟨""⟩).1 =
      some ⟨10, "H", some "#00FF00"⟩ := by decide

example :
    (xrandr_rotate { defaultConfig with screen := some "VGA1", hide_if_disconnected := true }
      ⟨["eDP1"], fun _ => "normal"⟩ ⟨"#00FF00", "#FFFF00"⟩ 0 ⟨"H"⟩) =
      (some ⟨10, "", none⟩, ⟨""⟩) := by decide

example :
    (xrandr_rotate { defaultConfig with format := [FmtItem.icon, FmtItem.lit " ", FmtItem.screen] }
      ⟨["eDP1", "HDMI1"], fun _ => "normal"⟩ ⟨"#00FF00", "#FFFF00"⟩ 0 ⟨""⟩).1 =
      some ⟨10, "H ALL", some "#00FF00"⟩ := by decide

/-- Claim C1: the spec (and the module's own docstring) say the `{screen}`
label is the configured screen name whenever a screen is configured.  The
code's line 118 parses as `(self.screen or all_outputs[0]) if
len(all_outputs) == 1 else 'ALL'`, so with screen `VGA1` configured and two
outputs connected (`VGA1` among them) the label substituted is `ALL`, not
`VGA1`: evaluation of the embedded code at that failing input. -/
theorem c1_screen_label_ALL_despite_configured_screen :
    screenLabel { defaultConfig with screen := some "VGA1" } ["VGA1", "HDMI1"] = "ALL" ∧
    (xrandr_rotate
        { defaultConfig with screen := some "VGA1",
                             format := [FmtItem.icon, FmtItem.lit " ", FmtItem.screen] }
        ⟨["VGA1", "HDMI1"], fun _ => "normal"⟩ ⟨"#00FF00", "#FFFF00"⟩ 0 ⟨""⟩).1 =
      some ⟨10, "H ALL", some "#00FF00"⟩ ∧
    ("ALL" : String) ≠ "VGA1" := by decide

/-- Claim C2 (counterexample): in Scenario 3 (screen `VGA1` configured and
disconnected, outputs `["eDP1"]`, `hide_if_disconnected = false`,
`displayed` empty, default icons), the render lazily initialises
`displayed` to a real rotation icon before formatting, so the text is
`"V VGA1"` — it contains no fallback glyph `?`.  Color degraded does hold. -/
theorem c2_no_fallback_glyph_counterexample :
    (xrandr_rotate
        { defaultConfig with screen := some "VGA1",
                             format := [FmtItem.icon, FmtItem.lit " ", FmtItem.screen] }
        ⟨["eDP1"], fun _ => ""⟩ ⟨"#00FF00", "#FFFF00"⟩ 0 ⟨""⟩).1 =
      some ⟨10, "V VGA1", some "#FFFF00"⟩ ∧
    ('?' ∉ ("V VGA1" : String).data) := by decide

/-- Claim C3 (counterexample): with no screen configured, zero enumerated
outputs and `displayed` empty, `render()` does NOT return a response: it
raises `IndexError` on `all_outputs[0]` inside
`_get_current_rotation_icon` (modelled as `none`). -/
theorem c3_render_crashes_on_zero_outputs :
    (xrandr_rotate defaultConfig ⟨[], fun _ => ""⟩ ⟨"#00FF00", "#FFFF00"⟩ 0 ⟨""⟩).1 =
      none := by decide

/-- Claim C4 (counterexample): the empty descriptor `""` is classified as
vertical, not horizontal: with default icons the returned icon is `"V"`,
while the claim places `""` in the horizontal set and so demands `"H"`. -/
theorem c4_empty_descriptor_gives_vertical :
    _get_current_rotation_icon { defaultConfig with screen := some "eDP1" }
        ⟨["eDP1"], fun _ => ""⟩ ["eDP1"] = some "V" ∧
    ("V" : String) ≠ "H" := by decide

/-- Claim C5: for buttons 1, 4, 5, `on_click` sets `displayed` to one of
the two configured icons (never a third value); from the horizontal icon it
flips to the vertical icon, from anything else to the horizontal icon. -/
theorem c5_toggle_buttons_flip_displayed (cfg : Config) (env : Env) (st : WState)
    (b : Nat) (hb : b = 1 ∨ b = 4 ∨ b = 5) :
    ((on_click cfg env st b).1.displayed = cfg.horizontal_icon ∨
      (on_click cfg env st b).1.displayed = cfg.vertical_icon) ∧
    (st.displayed = cfg.horizontal_icon →
      (on_click cfg env st b).1.displayed = cfg.vertical_icon) ∧
    (st.displayed ≠ cfg.horizontal_icon →
      (on_click cfg env st b).1.displayed = cfg.horizontal_icon) := by
  have hcl : on_click cfg env st b = (_switch_selection cfg st, []) := by
    rcases hb with rfl | rfl | rfl <;> simp [on_click]
  rw [hcl]
  by_cases hd : st.displayed = cfg.horizontal_icon <;>
    simp [_switch_selection, hd]

/-- Witness for C5 at button 1, default config, empty displayed. -/
theorem c5_toggle_buttons_flip_displayed_witness :
    ((on_click defaultConfig ⟨[], fun _ => ""⟩ ⟨""⟩ 1).1.displayed =
        defaultConfig.horizontal_icon ∨
      (on_click defaultConfig ⟨[], fun _ => ""⟩ ⟨""⟩ 1).1.displayed =
        defaultConfig.vertical_icon) ∧
    ((⟨""⟩ : WState).displayed = defaultConfig.horizontal_icon →
      (on_click defaultConfig ⟨[], fun _ => ""⟩ ⟨""⟩ 1).1.displayed =
        defaultConfig.vertical_icon) ∧
    ((⟨""⟩ : WState).displayed ≠ defaultConfig.horizontal_icon →
      (on_click defaultConfig ⟨[], fun _ => ""⟩ ⟨""⟩ 1).1.displayed =
        defaultConfig.horizontal_icon) :=
  c5_toggle_buttons_flip_displayed defaultConfig ⟨[], fun _ => ""⟩ ⟨""⟩ 1 (Or.inl rfl)

/-- Claim C8: right-click (button 3) leaves the state unchanged and issues
exactly one rotation command per target, the targets being the single
configured screen when truthy, else every enumerated output; the rotation
keyword is the horizontal one iff `displayed` equals the horizontal icon. -/
theorem c8_apply_rotation_commands (cfg : Config) (env : Env) (st : WState) :
    (on_click cfg env st 3).1 = st ∧
    (on_click cfg env st 3).2 =
      (if pyTruthy cfg.screen then [cfg.screen.getD ""] else env.outputs).map
        (fun out => rotateCmd out
          (if st.displayed = cfg.horizontal_icon then cfg.horizontal_rotation
           else cfg.vertical_rotation)) ∧
    (on_click cfg env st 3).2.length =
      (if pyTruthy cfg.screen then [cfg.screen.getD ""] else env.outputs).length := by
  refine ⟨by simp [on_click], ?_, ?_⟩ <;>
    simp [on_click, _apply, _get_all_outputs]

/-- Claim C9: every button not in {1, 3, 4, 5} leaves the state unchanged
and issues no commands. -/
theorem c9_other_buttons_noop (cfg : Config) (env : Env) (st : WState) (b : Nat)
    (hb : b ≠ 1 ∧ b ≠ 3 ∧ b ≠ 4 ∧ b ≠ 5) :
    on_click cfg env st b = (st, []) := by
  obtain ⟨h1, h3, h4, h5⟩ := hb
  simp [on_click, h1, h3, h4, h5]

/-- Witness for C9 at button 2. -/
theorem c9_other_buttons_noop_witness :
    on_click defaultConfig ⟨["eDP1"], fun _ => ""⟩ ⟨"H"⟩ 2 = (⟨"H"⟩, []) :=
  c9_other_buttons_noop defaultConfig ⟨["eDP1"], fun _ => ""⟩ ⟨"H"⟩ 2
    (by decide)

/-- Claim C10 (counterexample): with `horizontal_icon = ""` configured, a
toggle click from the empty `displayed` state sets `displayed` to the
VERTICAL icon (`"" == horizontal_icon` holds), so the first click-driven
value is not always the horizontal icon. -/
theorem c10_empty_horizontal_icon_counterexample :
    (on_click { defaultConfig with horizontal_icon := "" }
        ⟨[], fun _ => ""⟩ ⟨""⟩ 1).1.displayed = "V" ∧
    (on_click { defaultConfig with horizontal_icon := "" }
        ⟨[], fun _ => ""⟩ ⟨""⟩ 1).1.displayed ≠
      ({ defaultConfig with horizontal_icon := "" } : Config).horizontal_icon := by
  decide

/-- Claim C10 (amended): when `displayed` is empty and the horizontal icon
glyph is nonempty, a toggle click (button 1, 4 or 5) always sets
`displayed` to the horizontal icon, regardless of the actual rotation. -/
theorem c10_first_toggle_is_horizontal (cfg : Config) (env : Env) (st : WState)
    (b : Nat) (hd : st.displayed = "") (hh : cfg.horizontal_icon ≠ "")
    (hb : b = 1 ∨ b = 4 ∨ b = 5) :
    (on_click cfg env st b).1.displayed = cfg.horizontal_icon := by
  have hcl : on_click cfg env st b = (_switch_selection cfg st, []) := by
    rcases hb with rfl | rfl | rfl <;> simp [on_click]
  rw [hcl]
  simp [_switch_selection, hd, Ne.symm hh]

/-- Witness for C10 at button 4, default config. -/
theorem c10_first_toggle_is_horizontal_witness :
    (on_click defaultConfig ⟨["eDP1"], fun _ => "left"⟩ ⟨""⟩ 4).1.displayed =
      defaultConfig.horizontal_icon :=
  c10_first_toggle_is_horizontal defaultConfig ⟨["eDP1"], fun _ => "left"⟩ ⟨""⟩ 4
    rfl (by decide) (Or.inr (Or.inl rfl))

/-- `xrandr_rotate` rewritten without its local `let`s, for proofs. -/
theorem xrandr_rotate_eq (cfg : Config) (env : Env) (i3cfg : I3Config)
    (now : Nat) (st : WState) :
    xrandr_rotate cfg env i3cfg now st =
      match renderStage1 cfg env st with
      | none => (none, st)
      | some (st1, full_text) =>
          match colorOf cfg env i3cfg (selectedScreenDisconnected cfg env.outputs)
              env.outputs st1.displayed with
          | none => (none, st1)
          | some c => (some ⟨now + cfg.cache_timeout, full_text, c⟩, st1) := rfl

/-- The screen-or-first-output selection succeeds whenever the screen is
truthy or at least one output is enumerated. -/
theorem pyOrFirst_isSome (screen : Option String) (outs : List String)
    (h : pyTruthy screen = true ∨ outs ≠ []) :
    ∃ name, pyOrFirst screen outs = some name := by
  unfold pyOrFirst
  by_cases ht : pyTruthy screen = true
  · rw [if_pos ht]
    cases hs : screen with
    | none => rw [hs] at ht; exact absurd ht (by simp [pyTruthy])
    | some s => exact ⟨s, rfl⟩
  · rw [if_neg ht]
    rcases h with h | h
    · exact absurd h ht
    · cases outs with
      | nil => exact absurd rfl h
      | cons a l => exact ⟨a, rfl⟩

/-- `_get_current_rotation_icon` succeeds under the same condition. -/
theorem get_icon_isSome (cfg : Config) (env : Env) (outs : List String)
    (h : pyTruthy cfg.screen = true ∨ outs ≠ []) :
    ∃ d, _get_current_rotation_icon cfg env outs = some d := by
  obtain ⟨name, hn⟩ := pyOrFirst_isSome cfg.screen outs h
  unfold _get_current_rotation_icon
  rw [hn]
  exact ⟨_, rfl⟩

/-- Whatever `_get_current_rotation_icon` returns is one of the two icons. -/
theorem get_icon_cases (cfg : Config) (env : Env) (outs : List String)
    (d : String) (h : _get_current_rotation_icon cfg env outs = some d) :
    d = cfg.horizontal_icon ∨ d = cfg.vertical_icon := by
  unfold _get_current_rotation_icon at h
  cases hp : pyOrFirst cfg.screen outs with
  | none => rw [hp] at h; exact absurd h (by simp)
  | some out =>
    rw [hp] at h
    simp only [Option.some.injEq] at h
    by_cases hcl : isHorizontalDescr (env.rotation out) = true
    · rw [if_pos hcl] at h; exact Or.inl h.symm
    · rw [if_neg hcl] at h; exact Or.inr h.symm

/-- Stage 1 of the render succeeds under the same condition. -/
theorem renderStage1_isSome (cfg : Config) (env : Env) (st : WState)
    (h : pyTruthy cfg.screen = true ∨ env.outputs ≠ []) :
    ∃ p, renderStage1 cfg env st = some p := by
  obtain ⟨d0, hd0⟩ := get_icon_isSome cfg env env.outputs h
  unfold renderStage1 _get_all_outputs
  by_cases hb : (selectedScreenDisconnected cfg env.outputs &&
      cfg.hide_if_disconnected) = true
  · rw [if_pos hb]; exact ⟨_, rfl⟩
  · rw [if_neg hb]
    by_cases hd : st.displayed = ""
    · rw [if_pos hd, hd0]; exact ⟨_, rfl⟩
    · rw [if_neg hd]; exact ⟨_, rfl⟩

/-- The coloration step succeeds under the same condition. -/
theorem colorOf_isSome (cfg : Config) (env : Env) (i3cfg : I3Config)
    (disc : Bool) (outs : List String) (displayed : String)
    (h : pyTruthy cfg.screen = true ∨ outs ≠ []) :
    ∃ c, colorOf cfg env i3cfg disc outs displayed = some c := by
  obtain ⟨d0, hd0⟩ := get_icon_isSome cfg env outs h
  unfold colorOf
  by_cases hb : (disc && !cfg.hide_if_disconnected) = true
  · rw [if_pos hb]; exact ⟨_, rfl⟩
  · rw [if_neg hb, hd0]
    by_cases hdd : displayed = d0 <;> simp [hdd]

/-- Claim C3 (amended): `render()` returns a response without raising
whenever a (truthy) screen is configured or at least one output is
enumerated; with neither, the first-output lookup raises `IndexError`
(the counterexample above). -/
theorem c3_render_total_with_screen_or_output (cfg : Config) (env : Env)
    (i3cfg : I3Config) (now : Nat) (st : WState)
    (h : pyTruthy cfg.screen = true ∨ env.outputs ≠ []) :
    ((xrandr_rotate cfg env i3cfg now st).1).isSome = true := by
  obtain ⟨⟨st1, t⟩, hs⟩ := renderStage1_isSome cfg env st h
  obtain ⟨c, hc⟩ := colorOf_isSome cfg env i3cfg
    (selectedScreenDisconnected cfg env.outputs) env.outputs st1.displayed h
  rw [xrandr_rotate_eq]
  simp only [hs, hc]
  rfl

/-- Witness for C3 (amended) with one output and no screen. -/
theorem c3_render_total_with_screen_or_output_witness :
    ((xrandr_rotate defaultConfig ⟨["eDP1"], fun _ => "normal"⟩
        ⟨"#00FF00", "#FFFF00"⟩ 0 ⟨""⟩).1).isSome = true :=
  c3_render_total_with_screen_or_output defaultConfig
    ⟨["eDP1"], fun _ => "normal"⟩ ⟨"#00FF00", "#FFFF00"⟩ 0 ⟨""⟩
    (Or.inr (by decide))

/-- Claim C4 (amended): given the inspected output `name`, the returned
icon is the horizontal one exactly when the descriptor equals `normal`,
equals `inverted`, or starts with `(`; it is the vertical one for every
other descriptor, the empty string included. -/
theorem c4_rotation_icon_classification (cfg : Config) (env : Env)
    (outs : List String) (name : String)
    (hsel : pyOrFirst cfg.screen outs = some name)
    (hne : cfg.horizontal_icon ≠ cfg.vertical_icon) :
    (_get_current_rotation_icon cfg env outs = some cfg.horizontal_icon ↔
      (strStartsWith (env.rotation name) "(" = true ∨
        env.rotation name = "normal" ∨ env.rotation name = "inverted")) ∧
    (_get_current_rotation_icon cfg env outs = some cfg.vertical_icon ↔
      ¬(strStartsWith (env.rotation name) "(" = true ∨
        env.rotation name = "normal" ∨ env.rotation name = "inverted")) := by
  unfold _get_current_rotation_icon
  rw [hsel]
  by_cases hcl : isHorizontalDescr (env.rotation name) = true
  · have hdis : strStartsWith (env.rotation name) "(" = true ∨
        env.rotation name = "normal" ∨ env.rotation name = "inverted" := by
      simpa [isHorizontalDescr, Bool.or_eq_true, decide_eq_true_eq, or_assoc]
        using hcl
    simp [hcl, hdis, hne]
  · have hdis : ¬(strStartsWith (env.rotation name) "(" = true ∨
        env.rotation name = "normal" ∨ env.rotation name = "inverted") := by
      simpa [isHorizontalDescr, Bool.or_eq_true, decide_eq_true_eq, not_or,
        and_assoc] using hcl
    simp [hcl, hdis, Ne.symm hne]

/-- Witness for C4 (amended) at descriptor `left` on output `eDP1`. -/
theorem c4_rotation_icon_classification_witness :
    (_get_current_rotation_icon { defaultConfig with screen := some "eDP1" }
        ⟨["eDP1"], fun _ => "left"⟩ ["eDP1"] =
        some ({ defaultConfig with screen := some "eDP1" } : Config).horizontal_icon ↔
      (strStartsWith ((⟨["eDP1"], fun _ => "left"⟩ : Env).rotation "eDP1") "(" = true ∨
        (⟨["eDP1"], fun _ => "left"⟩ : Env).rotation "eDP1" = "normal" ∨
        (⟨["eDP1"], fun _ => "left"⟩ : Env).rotation "eDP1" = "inverted")) ∧
    (_get_current_rotation_icon { defaultConfig with screen := some "eDP1" }
        ⟨["eDP1"], fun _ => "left"⟩ ["eDP1"] =
        some ({ defaultConfig with screen := some "eDP1" } : Config).vertical_icon ↔
      ¬(strStartsWith ((⟨["eDP1"], fun _ => "left"⟩ : Env).rotation "eDP1") "(" = true ∨
        (⟨["eDP1"], fun _ => "left"⟩ : Env).rotation "eDP1" = "normal" ∨
        (⟨["eDP1"], fun _ => "left"⟩ : Env).rotation "eDP1" = "inverted")) :=
  c4_rotation_icon_classification { defaultConfig with screen := some "eDP1" }
    ⟨["eDP1"], fun _ => "left"⟩ ["eDP1"] "eDP1" (by decide) (by decide)

/-- A toggle always lands on one of the two icons. -/
theorem switch_selection_inv (cfg : Config) (st : WState) :
    displayedInv cfg (_switch_selection cfg st) := by
  unfold _switch_selection displayedInv
  by_cases hd : st.displayed = cfg.horizontal_icon <;> simp [hd]

/-- Any click preserves the `displayed` invariant. -/
theorem on_click_inv (cfg : Config) (env : Env) (st : WState) (b : Nat)
    (h : displayedInv cfg st) : displayedInv cfg (on_click cfg env st b).1 := by
  unfold on_click
  by_cases h1 : b = 1 ∨ b = 4 ∨ b = 5
  · rw [if_pos h1]; exact switch_selection_inv cfg st
  · rw [if_neg h1]
    by_cases h3 : b = 3
    · rw [if_pos h3]; exact h
    · rw [if_neg h3]; exact h

/-- A successful stage 1 lands in an invariant-respecting state. -/
theorem renderStage1_state_inv (cfg : Config) (env : Env) (st st1 : WState)
    (t : String) (hst : displayedInv cfg st)
    (h : renderStage1 cfg env st = some (st1, t)) : displayedInv cfg st1 := by
  unfold renderStage1 _get_all_outputs at h
  by_cases hb : (selectedScreenDisconnected cfg env.outputs &&
      cfg.hide_if_disconnected) = true
  · rw [if_pos hb] at h
    simp only [Option.some.injEq, Prod.mk.injEq] at h
    rw [← h.1]
    exact Or.inl rfl
  · rw [if_neg hb] at h
    by_cases hd : st.displayed = ""
    · rw [if_pos hd] at h
      cases hic : _get_current_rotation_icon cfg env env.outputs with
      | none => rw [hic] at h; exact absurd h (by simp)
      | some d =>
        rw [hic] at h
        simp only [Option.some.injEq, Prod.mk.injEq] at h
        rw [← h.1]
        rcases get_icon_cases cfg env env.outputs d hic with h' | h'
        · exact Or.inr (Or.inl h')
        · exact Or.inr (Or.inr h')
    · rw [if_neg hd] at h
      simp only [Option.some.injEq, Prod.mk.injEq] at h
      rw [← h.1]
      exact hst

/-- A render call (crashing or not) preserves the `displayed` invariant. -/
theorem xrandr_rotate_state_inv (cfg : Config) (env : Env) (i3cfg : I3Config)
    (now : Nat) (st : WState) (hst : displayedInv cfg st) :
    displayedInv cfg (xrandr_rotate cfg env i3cfg now st).2 := by
  rw [xrandr_rotate_eq]
  cases hs : renderStage1 cfg env st with
  | none => simpa using hst
  | some p =>
    obtain ⟨st1, t⟩ := p
    have h1 := renderStage1_state_inv cfg env st st1 t hst hs
    cases hc : colorOf cfg env i3cfg (selectedScreenDisconnected cfg env.outputs)
        env.outputs st1.displayed with
    | none => simpa [hc] using h1
    | some c => simpa [hc] using h1

/-- The invariant is preserved by any sequence of host callbacks. -/
theorem runOps_inv (cfg : Config) (i3cfg : I3Config) (ops : List WOp) :
    ∀ st : WState, displayedInv cfg st →
      displayedInv cfg (runOps cfg i3cfg ops st) := by
  induction ops with
  | nil => intro st h; exact h
  | cons op rest ih =>
    intro st h
    cases op with
    | click env b => exact ih _ (on_click_inv cfg env st b h)
    | render env n => exact ih _ (xrandr_rotate_state_inv cfg env i3cfg n st h)

/-- Claim C6: starting from the empty `displayed` of `__init__`, after any
sequence of clicks and renders (each against an arbitrary snapshot of the
external tool), `displayed` is always empty, the horizontal icon, or the
vertical icon — never any other string. -/
theorem c6_displayed_invariant (cfg : Config) (i3cfg : I3Config)
    (ops : List WOp) : displayedInv cfg (runOps cfg i3cfg ops ⟨""⟩) :=
  runOps_inv cfg i3cfg ops ⟨""⟩ (Or.inl rfl)

/-- Stage 1 of the render is stable: re-running it from the state it
produced reproduces that state and text (the lazy initialisation already
happened, or the hide branch clears again). -/
theorem renderStage1_stable (cfg : Config) (env : Env) (st st1 : WState)
    (t : String) (h : renderStage1 cfg env st = some (st1, t)) :
    renderStage1 cfg env st1 = some (st1, t) := by
  unfold renderStage1 _get_all_outputs at h ⊢
  by_cases hb : (selectedScreenDisconnected cfg env.outputs &&
      cfg.hide_if_disconnected) = true
  · rw [if_pos hb] at h ⊢
    exact h ▸ rfl
  · rw [if_neg hb] at h ⊢
    by_cases hd : st.displayed = ""
    · rw [if_pos hd] at h
      cases hic : _get_current_rotation_icon cfg env env.outputs with
      | none => rw [hic] at h; exact absurd h (by simp)
      | some d =>
        rw [hic] at h
        simp only [Option.some.injEq, Prod.mk.injEq] at h
        obtain ⟨h1, h2⟩ := h
        rw [← h1, ← h2]
        by_cases hdd : d = ""
        · subst hdd
          simp [hic]
        · simp [hdd]
    · rw [if_neg hd] at h
      simp only [Option.some.injEq, Prod.mk.injEq] at h
      obtain ⟨h1, h2⟩ := h
      rw [← h1, ← h2]
      simp [hd]

/-- Claim C7: against a fixed external-tool response, if a render returns
a response, rendering again from the resulting state (at any later time)
returns a response with identical text and identical color tag. -/
theorem c7_render_idempotent (cfg : Config) (env : Env) (i3cfg : I3Config)
    (now1 now2 : Nat) (st : WState) (r1 : Response)
    (h1 : (xrandr_rotate cfg env i3cfg now1 st).1 = some r1) :
    ∃ r2, (xrandr_rotate cfg env i3cfg now2
        (xrandr_rotate cfg env i3cfg now1 st).2).1 = some r2 ∧
      r2.full_text = r1.full_text ∧ r2.color = r1.color := by
  rw [xrandr_rotate_eq] at h1
  cases hs : renderStage1 cfg env st with
  | none => simp only [hs] at h1; exact Option.noConfusion h1
  | some p =>
    obtain ⟨st1, t⟩ := p
    simp only [hs] at h1
    cases hc : colorOf cfg env i3cfg (selectedScreenDisconnected cfg env.outputs)
        env.outputs st1.displayed with
    | none => simp only [hc] at h1; exact Option.noConfusion h1
    | some c =>
      simp only [hc, Option.some.injEq] at h1
      have hst2 : (xrandr_rotate cfg env i3cfg now1 st).2 = st1 := by
        simp only [xrandr_rotate_eq, hs, hc]
      refine ⟨⟨now2 + cfg.cache_timeout, t, c⟩, ?_, ?_, ?_⟩
      · rw [hst2]
        simp only [xrandr_rotate_eq, renderStage1_stable cfg env st st1 t hs, hc]
      · rw [← h1]
      · rw [← h1]

/-- Witness for C7: one output, default config, first render succeeds. -/
theorem c7_render_idempotent_witness :
    ∃ r2, (xrandr_rotate defaultConfig ⟨["eDP1"], fun _ => "normal"⟩
        ⟨"#00FF00", "#FFFF00"⟩ 5
        (xrandr_rotate defaultConfig ⟨["eDP1"], fun _ => "normal"⟩
          ⟨"#00FF00", "#FFFF00"⟩ 0 ⟨""⟩).2).1 = some r2 ∧
      r2.full_text = (⟨10, "H", some "#00FF00"⟩ : Response).full_text ∧
      r2.color = (⟨10, "H", some "#00FF00"⟩ : Response).color :=
  c7_render_idempotent defaultConfig ⟨["eDP1"], fun _ => "normal"⟩
    ⟨"#00FF00", "#FFFF00"⟩ 0 5 ⟨""⟩ ⟨10, "H", some "#00FF00"⟩ (by decide)

/-- Claim C2 (amended): in Scenario 3 (screen `VGA1` configured but not
among the single enumerated output `eDP1`, `hide_if_disconnected = false`,
`displayed` initially empty, both icon glyphs nonempty, template
`{icon} {screen}`), the render returns a response whose color is the
degraded color and whose text is one of the two rotation icons (the one
classified from the queried descriptor) followed by the screen label
`VGA1` — the `?` fallback could only appear if the selected glyph itself
were empty. -/
theorem c2_degraded_render_shows_icon_and_label (cfg : Config) (env : Env)
    (i3cfg : I3Config) (now : Nat) (st : WState)
    (hscreen : cfg.screen = some "VGA1")
    (hhide : cfg.hide_if_disconnected = false)
    (hfmt : cfg.format = [FmtItem.icon, FmtItem.lit " ", FmtItem.screen])
    (houts : env.outputs = ["eDP1"])
    (hdisp : st.displayed = "")
    (hh : cfg.horizontal_icon ≠ "") (hv : cfg.vertical_icon ≠ "") :
    ∃ r, (xrandr_rotate cfg env i3cfg now st).1 = some r ∧
      r.color = some i3cfg.color_degraded ∧
      (r.full_text = cfg.horizontal_icon ++ " VGA1" ∨
        r.full_text = cfg.vertical_icon ++ " VGA1") := by
  have hdisc : selectedScreenDisconnected cfg env.outputs = true := by
    unfold selectedScreenDisconnected
    rw [hscreen, houts]
    decide
  have hicon : _get_current_rotation_icon cfg env env.outputs =
      some (if isHorizontalDescr (env.rotation "VGA1") then cfg.horizontal_icon
            else cfg.vertical_icon) := by
    unfold _get_current_rotation_icon pyOrFirst pyTruthy
    rw [hscreen]
    simp
  have hlabel : screenLabel cfg env.outputs = "VGA1" := by
    unfold screenLabel pyOrFirst pyTruthy
    rw [hscreen, houts]
    simp
  have htext : ∀ d : String, d ≠ "" →
      renderText cfg env.outputs d = d ++ " VGA1" := by
    intro d hd
    unfold renderText
    rw [hlabel, hfmt, if_neg hd]
    simp only [fmtRender]
    have hrest : ((" " : String) ++ ("VGA1" ++ "")) = " VGA1" := by decide
    rw [hrest]
  have hcol : ∀ d : String,
      colorOf cfg env i3cfg (selectedScreenDisconnected cfg env.outputs)
        env.outputs d = some (some i3cfg.color_degraded) := by
    intro d
    unfold colorOf
    rw [hdisc, hhide]
    simp
  by_cases hb : isHorizontalDescr (env.rotation "VGA1") = true
  · have hs : renderStage1 cfg env st =
        some (⟨cfg.horizontal_icon⟩, cfg.horizontal_icon ++ " VGA1") := by
      unfold renderStage1 _get_all_outputs
      rw [hhide, if_pos hdisp, hicon, if_pos hb]
      simp [htext cfg.horizontal_icon hh]
    refine ⟨⟨now + cfg.cache_timeout, cfg.horizontal_icon ++ " VGA1",
      some i3cfg.color_degraded⟩, ?_, rfl, Or.inl rfl⟩
    simp only [xrandr_rotate_eq, hs, hcol]
  · have hs : renderStage1 cfg env st =
        some (⟨cfg.vertical_icon⟩, cfg.vertical_icon ++ " VGA1") := by
      unfold renderStage1 _get_all_outputs
      rw [hhide, if_pos hdisp, hicon, if_neg hb]
      simp [htext cfg.vertical_icon hv]
    refine ⟨⟨now + cfg.cache_timeout, cfg.vertical_icon ++ " VGA1",
      some i3cfg.color_degraded⟩, ?_, rfl, Or.inr rfl⟩
    simp only [xrandr_rotate_eq, hs, hcol]

/-- Witness for C2 (amended) at the concrete Scenario-3 configuration. -/
theorem c2_degraded_render_shows_icon_and_label_witness :
    ∃ r, (xrandr_rotate cfgVGA1
        ⟨["eDP1"], fun _ => ""⟩ ⟨"#00FF00", "#FFFF00"⟩ 0 ⟨""⟩).1 = some r ∧
      r.color = some (⟨"#00FF00", "#FFFF00"⟩ : I3Config).color_degraded ∧
      (r.full_text = cfgVGA1.horizontal_icon ++ " VGA1" ∨
        r.full_text = cfgVGA1.vertical_icon ++ " VGA1") :=
  c2_degraded_render_shows_icon_and_label cfgVGA1
    ⟨["eDP1"], fun _ => ""⟩ ⟨"#00FF00", "#FFFF00"⟩ 0 ⟨""⟩
    rfl rfl rfl rfl rfl (by decide) (by decide)

end XrandrRotate
